import Mathlib

/-!
Verification of the powereg power-management controller core.

The definitions below shallowly embed the Rust sources:
  * `src/utils.rs` — `PersFd` (persistent control-file handle) and `set_value`;
  * `src/cpu.rs` — governor / EPP decoding, the cross-core consistency reads
    `read_scaling_governer` / `read_epp` (which use Rust `assert!` macros, i.e.
    they panic on violation), and the `/proc/stat` load computation
    `read_cpu_load`;
  * `src/battery.rs` — `ChargingStatus` decoding;
  * `src/events.rs` — the `Event` type, `state_transition`, `periodic_check`
    and `handle_event`;
  * `src/system_state.rs` — `set_powersave_mode` and `set_performance_mode`.

File reads and writes are made explicit: each sysfs read becomes an
`Except`-valued input parameter holding what the corresponding Rust read
returned, and each sysfs write becomes an element of a `ControlWrite` list
returned by the function. Rust `f64` arithmetic is modelled over `ℚ`.
Functions that can hit a Rust panic (`assert_eq!`, `unwrap`, `unreachable!`)
return a `RunResult`, whose `panicked` constructor marks process abortion.
-/

namespace Powereg

/-- From src/cpu.rs: `enum ScalingGoverner`. -/
inductive ScalingGoverner where
  | Performance
  | Powersave
  | Unknown
deriving DecidableEq

/-- From src/cpu.rs: `ScalingGoverner::from_string`. -/
def ScalingGoverner.from_string (s : String) : ScalingGoverner :=
  match s with
  | "performance" => ScalingGoverner.Performance
  | "powersave" => ScalingGoverner.Powersave
  | _ => ScalingGoverner.Unknown

/-- From src/cpu.rs: `enum EPP`. -/
inductive EPP where
  | EDefault
  | Performance
  | BalancePerformance
  | BalancePower
  | Power
  | Unknown
deriving DecidableEq

/-- From src/cpu.rs: `EPP::from_string`. -/
def EPP.from_string (s : String) : EPP :=
  match s with
  | "default" => EPP.EDefault
  | "performance" => EPP.Performance
  | "balance_performance" => EPP.BalancePerformance
  | "balance_power" => EPP.BalancePower
  | "power" => EPP.Power
  | _ => EPP.Unknown

/-- From src/battery.rs: `enum ChargingStatus`. -/
inductive ChargingStatus where
  | Charging
  | DisCharging
  | Unknown
deriving DecidableEq

/-- From src/battery.rs: `ChargingStatus::from_string` ("1" / "0"). -/
def ChargingStatus.from_string (s : String) : ChargingStatus :=
  match s with
  | "1" => ChargingStatus.Charging
  | "0" => ChargingStatus.DisCharging
  | _ => ChargingStatus.Unknown

/-- From src/utils.rs: `enum PersFdError`; `io::Error` payloads become their
message strings. -/
inductive PersFdError where
  | InvalidFilePerms
  | ReadErr (msg : String)
  | WriteErr (msg : String)
deriving DecidableEq

/-- From src/battery.rs: `enum BatteryStatesError`; `ParseIntError` payloads
become their message strings. -/
inductive BatteryStatesError where
  | PersFdErr (e : PersFdError)
  | ParseIntErr (msg : String)
deriving DecidableEq

/-- From src/cpu.rs: `enum CpuStatesError`. -/
inductive CpuStatesError where
  | InvalidScalingGovVal
  | InvalidEPPVal
  | InvalidAMDPstate
  | UnsupportedCpuType
  | EmptyProcStat
  | InvalidProcStat
  | GenericError (msg : String)
  | PersFdErr (e : PersFdError)
  | ParseIntErr (msg : String)
  | GeneralIoErr (msg : String)
deriving DecidableEq

/-- From src/system_state.rs: `enum SystemStateError`. -/
inductive SystemStateError where
  | ACPITypeErr (msg : String)
  | CpuStatesErr (e : CpuStatesError)
  | BatteryStatesErr (e : BatteryStatesError)
  | GeneralIoErr (msg : String)
deriving DecidableEq

/-- Outcome of running a code path that may hit a Rust panic
(`assert_ne!` / `assert_eq!` / `unwrap` / index out of bounds): either a
normal return value, a returned error, or a process-aborting panic. -/
inductive RunResult (ε α : Type) where
  | ok (a : α)
  | err (e : ε)
  | panicked (msg : String)
deriving DecidableEq

/-- The `State` enum of src/system_state.rs as used exhaustively by the
matches in `Event::state_transition` (src/events.rs lines 33-51); the spec
calls it PowerState with exactly these three variants. -/
inductive State where
  | Performance
  | Balanced
  | Powersave
deriving DecidableEq

/-- From src/events.rs: `enum Event`. -/
inductive Event where
  | PowerInPlug
  | PowerUnPlug
  | PeriodicCheck
  | LowBattery
  | HighCpuLoad
  | LowCpuLoad
  | Unknown
  | Error (msg : String)
deriving DecidableEq

/-- From src/events.rs: `Event::HIGH_CPU_LOAD` (an `f64`, modelled over ℚ). -/
def HIGH_CPU_LOAD : ℚ := 35

/-- From src/events.rs: `Event::LOW_CPU_LOAD`. -/
def LOW_CPU_LOAD : ℚ := 30

/-- From src/utils.rs: `struct PersFd` — the open-file handle is modelled by
the current file contents. -/
structure PersFd where
  write : Bool
  contents : String
deriving DecidableEq

/-- One file operation issued by `PersFd::set_value`, in program order. -/
inductive FileOp where
  | seekStart
  | truncate
  | writeAll (s : String)
  | flush
deriving DecidableEq

/-- From src/utils.rs lines 58-73: `PersFd::set_value`. Requires the handle
to be writable, truncates, writes `value + "\n"`, flushes; on success returns
the updated file together with the operation trace. -/
def PersFd.set_value (fd : PersFd) (value : String) :
    Except PersFdError (PersFd × List FileOp) :=
  if !fd.write then
    Except.error PersFdError.InvalidFilePerms
  else
    Except.ok ({ fd with contents := value ++ "\n" },
      [FileOp.seekStart, FileOp.truncate, FileOp.writeAll (value ++ "\n"), FileOp.flush])

/-- The comparison loop of src/cpu.rs `read_scaling_governer` (lines 244-247):
every core past core 0 is decoded and `assert_eq!`-compared against core 0's
value; a failed read propagates as an error, a mismatch panics. -/
def read_scaling_governer_loop (gov : ScalingGoverner) :
    List (Except PersFdError String) → RunResult CpuStatesError ScalingGoverner
  | [] => RunResult.ok gov
  | v :: rest =>
    match v with
    | Except.error e => RunResult.err (CpuStatesError.PersFdErr e)
    | Except.ok s =>
      if gov = ScalingGoverner.from_string s then
        read_scaling_governer_loop gov rest
      else
        RunResult.panicked "Scaling governer is the same for all cpu cores"

/-- From src/cpu.rs lines 235-250: `CpuStates::read_scaling_governer`, taking
the list of per-core `scaling_governor` read results (core 0 first). Core 0's
value is decoded and `assert_ne!`-checked against `Unknown` (a panic on
violation), then every remaining core is compared for exact equality. -/
def read_scaling_governer (vals : List (Except PersFdError String)) :
    RunResult CpuStatesError ScalingGoverner :=
  match vals with
  | [] => RunResult.panicked "index out of bounds"
  | v0 :: rest =>
    match v0 with
    | Except.error e => RunResult.err (CpuStatesError.PersFdErr e)
    | Except.ok s =>
      let gov := ScalingGoverner.from_string s
      if gov = ScalingGoverner.Unknown then
        RunResult.panicked "Scaling governer is not unknown"
      else
        read_scaling_governer_loop gov rest

/-- The comparison loop of src/cpu.rs `read_epp` (lines 273-276). -/
def read_epp_loop (gov : EPP) :
    List (Except PersFdError String) → RunResult CpuStatesError EPP
  | [] => RunResult.ok gov
  | v :: rest =>
    match v with
    | Except.error e => RunResult.err (CpuStatesError.PersFdErr e)
    | Except.ok s =>
      if gov = EPP.from_string s then
        read_epp_loop gov rest
      else
        RunResult.panicked "EPP is the same for all cpu cores"

/-- From src/cpu.rs lines 269-278: `CpuStates::read_epp`, same shape as
`read_scaling_governer`. -/
def read_epp (vals : List (Except PersFdError String)) :
    RunResult CpuStatesError EPP :=
  match vals with
  | [] => RunResult.panicked "index out of bounds"
  | v0 :: rest =>
    match v0 with
    | Except.error e => RunResult.err (CpuStatesError.PersFdErr e)
    | Except.ok s =>
      let gov := EPP.from_string s
      if gov = EPP.Unknown then
        RunResult.panicked "EPP is not unknown"
      else
        read_epp_loop gov rest

/-- The wrapping cast of a `u64` value to `i64`, Rust `as i64` (which wraps
in every build mode): values at or above 2^63 come out negative. -/
def toI64 (x : Nat) : Int :=
  if x % 2 ^ 64 < 2 ^ 63 then ((x % 2 ^ 64 : Nat) : Int)
  else ((x % 2 ^ 64 : Nat) : Int) - 2 ^ 64

/-- Wrap an integer into the `i64` range, as release-mode Rust `i64`
arithmetic does on overflow. -/
def wrapI64 (x : Int) : Int := (x + 2 ^ 63) % 2 ^ 64 - 2 ^ 63

/-- The arithmetic core of src/cpu.rs lines 357-395 `CpuStates::read_cpu_load`,
on the two lists of parsed `/proc/stat` cpu-line fields (the integers after
the `cpu` label, each a `u64`, first and second sample). Mirrors the
field-count guards, the `u64` sums and the `u64` add in
`idle = field[3] + field.get(4).unwrap_or(0)` (idle + iowait; `getD 3 0` is
the guarded index 3) — both reduced mod 2^64 as release-mode `u64`
arithmetic — the `as i64` casts via `toI64`, the `i64` subtractions in
`total_delta = (now_total as i64 - prev_total as i64).max(1)`,
`idle_delta = now_idle as i64 - prev_idle as i64` and
`busy_delta = (total_delta - idle_delta).max(0)` via `wrapI64`, and the
final `f64` division modelled over ℚ. -/
def compute_cpu_load (prev now : List Nat) : Except CpuStatesError ℚ :=
  if prev.length < 4 then Except.error CpuStatesError.InvalidProcStat
  else if 10 < prev.length then Except.error (CpuStatesError.GenericError "to many fields")
  else if now.length < 4 then Except.error CpuStatesError.InvalidProcStat
  else if 10 < now.length then Except.error (CpuStatesError.GenericError "to many fields")
  else
    let prev_total : Nat := prev.sum % 2 ^ 64
    let prev_idle : Nat := (prev.getD 3 0 + prev.getD 4 0) % 2 ^ 64
    let now_total : Nat := now.sum % 2 ^ 64
    let now_idle : Nat := (now.getD 3 0 + now.getD 4 0) % 2 ^ 64
    let total_delta : Int := max (wrapI64 (toI64 now_total - toI64 prev_total)) 1
    let idle_delta : Int := wrapI64 (toI64 now_idle - toI64 prev_idle)
    let busy_delta : Int := max (wrapI64 (total_delta - idle_delta)) 0
    Except.ok ((busy_delta : ℚ) / (total_delta : ℚ) * 100)

/-- From src/events.rs lines 30-54: `Event::state_transition` as a pure
function from the triggering event and the old state to the new state. -/
def state_transition (ev : Event) (old_state : State) : State :=
  match old_state with
  | State.Performance =>
    match ev with
    | Event.PowerInPlug => State.Performance
    | Event.PowerUnPlug | Event.LowBattery => State.Powersave
    | Event.HighCpuLoad | Event.LowCpuLoad => State.Performance
    | _ => old_state
  | State.Balanced =>
    match ev with
    | Event.PowerInPlug => State.Performance
    | Event.PowerUnPlug | Event.LowBattery => State.Powersave
    | Event.HighCpuLoad | Event.LowCpuLoad => State.Performance
    | _ => old_state
  | State.Powersave =>
    match ev with
    | Event.PowerInPlug => State.Performance
    | Event.PowerUnPlug | Event.LowBattery => State.Powersave
    | _ => old_state

/-- From src/events.rs lines 56-80: `Event::periodic_check`. The three sysfs
reads become the parameters `capacity` (battery capacity), `charging`
(charging status) and `boost` (cpu boost), each holding what the Rust read
returned; `cpu_load` is the load value already read by the caller. Early
returns and the `?` error propagation are mirrored exactly: a low battery is
detected before the charging status or boost are ever read. -/
def periodic_check (capacity : Except BatteryStatesError Nat)
    (charging : Except BatteryStatesError ChargingStatus)
    (boost : Except CpuStatesError Bool)
    (cpu_load : ℚ) : Except SystemStateError Event :=
  match capacity with
  | Except.error e => Except.error (SystemStateError.BatteryStatesErr e)
  | Except.ok cap =>
    if cap ≤ 20 then Except.ok Event.LowBattery
    else
      match charging with
      | Except.error e => Except.error (SystemStateError.BatteryStatesErr e)
      | Except.ok cs =>
        match boost with
        | Except.error e => Except.error (SystemStateError.CpuStatesErr e)
        | Except.ok b =>
          if HIGH_CPU_LOAD ≤ cpu_load ∧ ¬(cs = ChargingStatus.DisCharging) ∧ ¬(b = true) then
            Except.ok Event.HighCpuLoad
          else if cpu_load < LOW_CPU_LOAD ∧ ¬(cs = ChargingStatus.DisCharging) ∧ b = true then
            Except.ok Event.LowCpuLoad
          else if cs = ChargingStatus.DisCharging then
            Except.ok Event.PowerUnPlug
          else
            Except.ok Event.PowerInPlug

/-- Which mode setter `Event::handle_event` invokes on the shared
`SystemState` (src/events.rs lines 92-103). `unreachableBranch` marks the
`unreachable!()` arm. -/
inductive ModeAction where
  | noWrites
  | setPowersave
  | setBalanced
  | setPerformance (boost : Bool)
  | unreachableBranch
deriving DecidableEq

/-- From src/events.rs lines 82-106: `Event::handle_event`. `ev` is the
delivered event (`self`); `cpu_load_read` is what `read_cpu_load` returned
(its failure propagates via `?`); a failing `periodic_check` falls back to
the delivered event via `unwrap_or(self.clone())`. The result is the new
state together with the mode setter invoked. -/
def handle_event (ev : Event)
    (capacity : Except BatteryStatesError Nat)
    (charging : Except BatteryStatesError ChargingStatus)
    (boost : Except CpuStatesError Bool)
    (cpu_load_read : Except CpuStatesError ℚ)
    (old_state : State) : Except SystemStateError (State × ModeAction) :=
  match cpu_load_read with
  | Except.error e => Except.error (SystemStateError.CpuStatesErr e)
  | Except.ok cpu_load =>
    let event := match periodic_check capacity charging boost cpu_load with
      | Except.ok e => e
      | Except.error _ => ev
    let new_state := state_transition event old_state
    if new_state = State.Performance then
      Except.ok (new_state, ModeAction.setPerformance (HIGH_CPU_LOAD ≤ cpu_load))
    else if ¬(old_state = new_state) then
      match new_state with
      | State.Powersave => Except.ok (new_state, ModeAction.setPowersave)
      | State.Balanced => Except.ok (new_state, ModeAction.setBalanced)
      | State.Performance => Except.ok (new_state, ModeAction.unreachableBranch)
    else
      Except.ok (new_state, ModeAction.noWrites)

/-- One daemon-loop iteration of src/rust/src/main.rs lines 85-90: the event
handler's result is `unwrap()`ed, so an `Err` aborts the loop by panicking. -/
def daemon_step (ev : Event)
    (capacity : Except BatteryStatesError Nat)
    (charging : Except BatteryStatesError ChargingStatus)
    (boost : Except CpuStatesError Bool)
    (cpu_load_read : Except CpuStatesError ℚ)
    (old_state : State) : RunResult SystemStateError (State × ModeAction) :=
  match handle_event ev capacity charging boost cpu_load_read old_state with
  | Except.ok x => RunResult.ok x
  | Except.error _ => RunResult.panicked "called unwrap on an Err value"

/-- One write to a kernel control file, tagged by which control it targets. -/
inductive ControlWrite where
  | scaling_governer (value : String)
  | epp (value : String)
  | platform_profile (value : String)
  | cpu_boost (value : String)
deriving DecidableEq

/-- From src/cpu.rs lines 252-267: `CpuStates::set_scaling_governer` over `n`
cores, returning the writes issued (one per core). -/
def set_scaling_governer (n : Nat) (g : ScalingGoverner) :
    Except CpuStatesError (List ControlWrite) :=
  match g with
  | ScalingGoverner.Powersave =>
    Except.ok (List.replicate n (ControlWrite.scaling_governer "powersave"))
  | ScalingGoverner.Performance =>
    Except.ok (List.replicate n (ControlWrite.scaling_governer "performance"))
  | ScalingGoverner.Unknown => Except.error CpuStatesError.InvalidScalingGovVal

/-- From src/cpu.rs lines 280-295: `CpuStates::set_epp` over `n` cores. -/
def set_epp (n : Nat) (e : EPP) : Except CpuStatesError (List ControlWrite) :=
  match e with
  | EPP.EDefault => Except.ok (List.replicate n (ControlWrite.epp "default"))
  | EPP.Performance => Except.ok (List.replicate n (ControlWrite.epp "performance"))
  | EPP.BalancePerformance =>
    Except.ok (List.replicate n (ControlWrite.epp "balance_performance"))
  | EPP.BalancePower => Except.ok (List.replicate n (ControlWrite.epp "balance_power"))
  | EPP.Power => Except.ok (List.replicate n (ControlWrite.epp "power"))
  | EPP.Unknown => Except.error CpuStatesError.InvalidEPPVal

/-- From src/system_state.rs lines 171-176: `SystemState::set_powersave_mode`
— governor `powersave` then EPP `balance_power`, and nothing else. -/
def set_powersave_mode (n : Nat) : Except SystemStateError (List ControlWrite) :=
  match set_scaling_governer n ScalingGoverner.Powersave with
  | Except.error e => Except.error (SystemStateError.CpuStatesErr e)
  | Except.ok w1 =>
    match set_epp n EPP.BalancePower with
    | Except.error e => Except.error (SystemStateError.CpuStatesErr e)
    | Except.ok w2 => Except.ok (w1 ++ w2)

/-- From src/system_state.rs lines 178-188: `SystemState::set_performance_mode`
— if the charging status reads `DisCharging` it returns at once with zero
writes, otherwise governor `performance` then EPP `performance`. -/
def set_performance_mode (charging : Except BatteryStatesError ChargingStatus)
    (n : Nat) : Except SystemStateError (List ControlWrite) :=
  match charging with
  | Except.error e => Except.error (SystemStateError.BatteryStatesErr e)
  | Except.ok cs =>
    if cs = ChargingStatus.DisCharging then Except.ok []
    else
      match set_scaling_governer n ScalingGoverner.Performance with
      | Except.error e => Except.error (SystemStateError.CpuStatesErr e)
      | Except.ok w1 =>
        match set_epp n EPP.Performance with
        | Except.error e => Except.error (SystemStateError.CpuStatesErr e)
        | Except.ok w2 => Except.ok (w1 ++ w2)

/-- The spec's ephemeral Sample record (§3). -/
structure Sample where
  batteryCapacityPct : Nat
  chargingStatus : ChargingStatus
  cpuTempC : Nat
  cpuLoadPct : ℚ
  cpuBoostEnabled : Bool

/-- The spec's Event union restricted to the periodic classifications named
by its §4.6 priority list. -/
inductive SpecEvent where
  | LowBattery
  | PowerUnplug
  | PowerPlug
  | HighCpuLoad
  | LoadNormalized
  | Unknown
deriving DecidableEq

/-- Modelled from the spec: the §4.6 periodic-classification priority list,
"first satisfied wins": LowBattery (capacity ≤ threshold) > PowerUnplug
(discharging while state ∈ \x7bPerformance, Balanced\x7d) > PowerPlug
(charging while state = Powersave) > HighCpuLoad (temperature or load over
threshold) > LoadNormalized (charging, state = Balanced, thresholds not
exceeded) > Unknown. This definition follows the spec's words, not the code,
and exists only to compare the two. -/
def spec_periodic_classify (battThresh tempThresh : Nat) (loadThresh : ℚ)
    (s : Sample) (state : State) : SpecEvent :=
  if s.batteryCapacityPct ≤ battThresh then SpecEvent.LowBattery
  else if s.chargingStatus = ChargingStatus.DisCharging ∧
      (state = State.Performance ∨ state = State.Balanced) then SpecEvent.PowerUnplug
  else if s.chargingStatus = ChargingStatus.Charging ∧ state = State.Powersave then
    SpecEvent.PowerPlug
  else if tempThresh ≤ s.cpuTempC ∨ loadThresh ≤ s.cpuLoadPct then SpecEvent.HighCpuLoad
  else if s.chargingStatus = ChargingStatus.Charging ∧ state = State.Balanced then
    SpecEvent.LoadNormalized
  else SpecEvent.Unknown

end Powereg

namespace Powereg

/-! ## Helper lemmas for the cross-core consistency reads -/

lemma read_scaling_governer_loop_all_eq (gov : ScalingGoverner) (rest : List String)
    (h : ∀ s ∈ rest, ScalingGoverner.from_string s = gov) :
    read_scaling_governer_loop gov (rest.map Except.ok) = RunResult.ok gov := by
  induction rest with
  | nil => rfl
  | cons a t ih =>
    have ha := h a (List.mem_cons_self a t)
    simp only [List.map_cons, read_scaling_governer_loop]
    rw [if_pos ha.symm]
    exact ih fun s hs => h s (List.mem_cons_of_mem a hs)

lemma read_scaling_governer_loop_exists_ne (gov : ScalingGoverner) (rest : List String)
    (h : ∃ s ∈ rest, ScalingGoverner.from_string s ≠ gov) :
    read_scaling_governer_loop gov (rest.map Except.ok) =
      RunResult.panicked "Scaling governer is the same for all cpu cores" := by
  induction rest with
  | nil => simp at h
  | cons a t ih =>
    simp only [List.map_cons, read_scaling_governer_loop]
    rcases h with ⟨s, hs, hne⟩
    by_cases hg : ScalingGoverner.from_string a = gov
    · rw [if_pos hg.symm]
      rcases List.mem_cons.mp hs with rfl | ht
      · exact absurd hg hne
      · exact ih ⟨s, ht, hne⟩
    · rw [if_neg fun hh => hg hh.symm]

lemma read_epp_loop_all_eq (gov : EPP) (rest : List String)
    (h : ∀ s ∈ rest, EPP.from_string s = gov) :
    read_epp_loop gov (rest.map Except.ok) = RunResult.ok gov := by
  induction rest with
  | nil => rfl
  | cons a t ih =>
    have ha := h a (List.mem_cons_self a t)
    simp only [List.map_cons, read_epp_loop]
    rw [if_pos ha.symm]
    exact ih fun s hs => h s (List.mem_cons_of_mem a hs)

lemma read_epp_loop_exists_ne (gov : EPP) (rest : List String)
    (h : ∃ s ∈ rest, EPP.from_string s ≠ gov) :
    read_epp_loop gov (rest.map Except.ok) =
      RunResult.panicked "EPP is the same for all cpu cores" := by
  induction rest with
  | nil => simp at h
  | cons a t ih =>
    simp only [List.map_cons, read_epp_loop]
    rcases h with ⟨s, hs, hne⟩
    by_cases hg : EPP.from_string a = gov
    · rw [if_pos hg.symm]
      rcases List.mem_cons.mp hs with rfl | ht
      · exact absurd hg hne
      · exact ih ⟨s, ht, hne⟩
    · rw [if_neg fun hh => hg hh.symm]

/-! ## C1 -/

/-- C1 (amended): with at least one core, if all per-core governor (resp. EPP)
control files decode to the same non-Unknown value, the read returns that
value; if core 0 decodes to Unknown, or any core past core 0 decodes to a
different value, the read aborts with an assertion failure (a Rust panic) —
never a silent resolution, but also not a returned error as the claim
stated. -/
theorem read_governor_epp_consistency (s0 : String) (rest : List String) :
    (ScalingGoverner.from_string s0 ≠ ScalingGoverner.Unknown →
      (∀ s ∈ rest, ScalingGoverner.from_string s = ScalingGoverner.from_string s0) →
      read_scaling_governer ((s0 :: rest).map Except.ok) =
        RunResult.ok (ScalingGoverner.from_string s0))
    ∧ (ScalingGoverner.from_string s0 = ScalingGoverner.Unknown →
      read_scaling_governer ((s0 :: rest).map Except.ok) =
        RunResult.panicked "Scaling governer is not unknown")
    ∧ (ScalingGoverner.from_string s0 ≠ ScalingGoverner.Unknown →
      (∃ s ∈ rest, ScalingGoverner.from_string s ≠ ScalingGoverner.from_string s0) →
      read_scaling_governer ((s0 :: rest).map Except.ok) =
        RunResult.panicked "Scaling governer is the same for all cpu cores")
    ∧ (EPP.from_string s0 ≠ EPP.Unknown →
      (∀ s ∈ rest, EPP.from_string s = EPP.from_string s0) →
      read_epp ((s0 :: rest).map Except.ok) = RunResult.ok (EPP.from_string s0))
    ∧ (EPP.from_string s0 = EPP.Unknown →
      read_epp ((s0 :: rest).map Except.ok) = RunResult.panicked "EPP is not unknown")
    ∧ (EPP.from_string s0 ≠ EPP.Unknown →
      (∃ s ∈ rest, EPP.from_string s ≠ EPP.from_string s0) →
      read_epp ((s0 :: rest).map Except.ok) =
        RunResult.panicked "EPP is the same for all cpu cores") := by
  refine ⟨fun h0 hall => ?_, fun h0 => ?_, fun h0 hex => ?_,
    fun h0 hall => ?_, fun h0 => ?_, fun h0 hex => ?_⟩
  · simp only [List.map_cons, read_scaling_governer]
    rw [if_neg h0]
    exact read_scaling_governer_loop_all_eq _ _ hall
  · simp only [List.map_cons, read_scaling_governer]
    rw [if_pos h0]
  · simp only [List.map_cons, read_scaling_governer]
    rw [if_neg h0]
    exact read_scaling_governer_loop_exists_ne _ _ hex
  · simp only [List.map_cons, read_epp]
    rw [if_neg h0]
    exact read_epp_loop_all_eq _ _ hall
  · simp only [List.map_cons, read_epp]
    rw [if_pos h0]
  · simp only [List.map_cons, read_epp]
    rw [if_neg h0]
    exact read_epp_loop_exists_ne _ _ hex

/-- C1 witness: concrete instances of the consistency read — two agreeing
cores return the value, a divergent second core panics, an unknown EPP on
core 0 panics. -/
theorem read_governor_epp_consistency_witness :
    read_scaling_governer (["performance", "performance"].map Except.ok) =
      RunResult.ok (ScalingGoverner.from_string "performance")
    ∧ read_scaling_governer (["performance", "powersave"].map Except.ok) =
      RunResult.panicked "Scaling governer is the same for all cpu cores"
    ∧ read_epp (["bogus"].map Except.ok) = RunResult.panicked "EPP is not unknown" :=
  ⟨(read_governor_epp_consistency "performance" ["performance"]).1
      (by decide) (by decide),
   (read_governor_epp_consistency "performance" ["powersave"]).2.2.1
      (by decide) (by decide),
   (read_governor_epp_consistency "bogus" []).2.2.2.2.1 (by decide)⟩

/-- C1 counterexample: two cores decoding to `performance` and `powersave`
make the governor read panic through `assert_eq!`; the outcome is a process
abort, not the returned Inconsistent error the claim describes. -/
theorem read_governor_divergence_panics :
    read_scaling_governer [Except.ok "performance", Except.ok "powersave"] =
      RunResult.panicked "Scaling governer is the same for all cpu cores"
    ∧ ∀ e : CpuStatesError,
      read_scaling_governer [Except.ok "performance", Except.ok "powersave"] ≠
        RunResult.err e := by
  refine ⟨rfl, fun e h => ?_⟩
  rw [show read_scaling_governer [Except.ok "performance", Except.ok "powersave"] =
    RunResult.panicked "Scaling governer is the same for all cpu cores" from rfl] at h
  exact RunResult.noConfusion h

end Powereg

namespace Powereg

/-! ## C2 -/

/-- C2 counterexample: in state Performance a HighCpuLoad event does not
transition to Balanced — `state_transition` keeps Performance. -/
theorem high_cpu_load_not_balanced :
    state_transition Event.HighCpuLoad State.Performance = State.Performance
    ∧ state_transition Event.HighCpuLoad State.Performance ≠ State.Balanced :=
  ⟨rfl, by decide⟩

/-- C2 (amended): in state Performance a HighCpuLoad event leaves the state
at Performance; for the sample capacity=80, charging, cpuLoad=90% (boost
off), the periodic classification yields HighCpuLoad and `handle_event`
keeps the state Performance, re-applying performance mode. -/
theorem high_cpu_load_in_performance :
    periodic_check (Except.ok 80) (Except.ok ChargingStatus.Charging)
      (Except.ok false) 90 = Except.ok Event.HighCpuLoad
    ∧ state_transition Event.HighCpuLoad State.Performance = State.Performance
    ∧ handle_event Event.PeriodicCheck (Except.ok 80) (Except.ok ChargingStatus.Charging)
        (Except.ok false) (Except.ok 90) State.Performance =
      Except.ok (State.Performance, ModeAction.setPerformance true) :=
  ⟨rfl, rfl, rfl⟩

/-! ## C3 -/

/-- C3 counterexample: at capacity=80, charging, boost off, load=90 and
current state Powersave, the claimed priority order (PowerPlug before
HighCpuLoad, with PowerPlug triggered by charging while in Powersave) demands
a PowerPlug classification, but the code classifies HighCpuLoad. -/
theorem classifier_order_differs :
    periodic_check (Except.ok 80) (Except.ok ChargingStatus.Charging)
      (Except.ok false) 90 = Except.ok Event.HighCpuLoad
    ∧ spec_periodic_classify 20 90 35
        ⟨80, ChargingStatus.Charging, 50, 90, false⟩ State.Powersave = SpecEvent.PowerPlug
    ∧ Event.HighCpuLoad ≠ Event.PowerInPlug :=
  ⟨rfl, rfl, by decide⟩

/-- C3 (amended): the periodic classification evaluates one fresh sample in
the fixed priority order LowBattery (capacity ≤ 20) > HighCpuLoad (load ≥ 35
while not discharging with boost off) > LowCpuLoad (load < 30 while not
discharging with boost on) > PowerUnPlug (discharging) > PowerInPlug
(otherwise); it never consults the current state or a temperature, and it has
no LoadNormalized or Unknown outcome. In particular a sample satisfying both
the LowBattery and the HighCpuLoad conditions classifies as LowBattery. -/
theorem periodic_check_priority (cap : Nat) (cs : ChargingStatus) (b : Bool) (load : ℚ) :
    periodic_check (Except.ok cap) (Except.ok cs) (Except.ok b) load =
      Except.ok (
        if cap ≤ 20 then Event.LowBattery
        else if HIGH_CPU_LOAD ≤ load ∧ cs ≠ ChargingStatus.DisCharging ∧ b = false then
          Event.HighCpuLoad
        else if load < LOW_CPU_LOAD ∧ cs ≠ ChargingStatus.DisCharging ∧ b = true then
          Event.LowCpuLoad
        else if cs = ChargingStatus.DisCharging then Event.PowerUnPlug
        else Event.PowerInPlug)
    ∧ (cap ≤ 20 →
      periodic_check (Except.ok cap) (Except.ok cs) (Except.ok b) load =
        Except.ok Event.LowBattery) := by
  constructor
  · simp only [periodic_check, ne_eq, Bool.not_eq_true]
    split_ifs <;> simp_all
  · intro h
    simp [periodic_check, h]

/-- C3 witness: capacity 10 satisfies the LowBattery condition and load 90
with boost off while charging satisfies the HighCpuLoad condition; the
classification is LowBattery. -/
theorem periodic_check_priority_witness :
    periodic_check (Except.ok 10) (Except.ok ChargingStatus.Charging)
      (Except.ok false) 90 = Except.ok Event.LowBattery :=
  (periodic_check_priority 10 ChargingStatus.Charging false 90).2 (by decide)

/-! ## C4 -/

lemma getD_le_sum (l : List Nat) (n : Nat) : l.getD n 0 ≤ l.sum := by
  induction l generalizing n with
  | nil => simp [List.getD]
  | cons a t ih =>
    cases n with
    | zero => exact Nat.le_add_right a t.sum
    | succ m =>
      calc t.getD m 0 ≤ t.sum := ih m
        _ ≤ a + t.sum := Nat.le_add_left _ _

lemma idle_le_sum (l : List Nat) (h : 4 ≤ l.length) :
    l.getD 3 0 + l.getD 4 0 ≤ l.sum := by
  rcases l with _ | ⟨a, l⟩
  · simp at h
  rcases l with _ | ⟨b, l⟩
  · simp at h
  rcases l with _ | ⟨c, l⟩
  · simp at h
  rcases l with _ | ⟨d, l⟩
  · simp at h
  have h1 : (a :: b :: c :: d :: l : List Nat).getD 3 0 = d := rfl
  have h2 : (a :: b :: c :: d :: l : List Nat).getD 4 0 = l.getD 0 0 := rfl
  have h3 := getD_le_sum l 0
  rw [h1, h2]
  simp only [List.sum_cons]
  omega

lemma toI64_of_lt (x : Nat) (h : x < 2 ^ 63) : toI64 x = (x : Int) := by
  unfold toI64
  simp only [Nat.mod_eq_of_lt (show x < 2 ^ 64 by omega)]
  rw [if_pos h]

lemma wrapI64_of_bounds (x : Int) (h1 : -(2 ^ 63) ≤ x) (h2 : x < 2 ^ 63) :
    wrapI64 x = x := by
  have h3 : (x + 2 ^ 63) % 2 ^ 64 = x + 2 ^ 63 :=
    Int.emod_eq_of_lt (by omega) (by omega)
  simp only [wrapI64, h3]
  omega

/-- C4 counterexample: the claimed formula over mathematical deltas fails
where the `as i64` cast of cpu.rs line 388 wraps. At the parseable sample
pair prev = [0,0,0,0], now = [0, 2^63-5, 0, 5] the code computes load 0%
(the wrapped total delta is negative and is floored to 1, making the busy
delta 0), while the claim's totalDelta is 2^63, its busyDelta is 2^63 - 5
and its load (2^63-5)/2^63*100 is nonzero. -/
theorem cpu_load_wrap_counterexample :
    compute_cpu_load [0, 0, 0, 0] [0, 2 ^ 63 - 5, 0, 5] = Except.ok 0
    ∧ max 1 ((([0, 2 ^ 63 - 5, 0, 5] : List Nat).sum : Int) -
        (([0, 0, 0, 0] : List Nat).sum : Int)) = 2 ^ 63
    ∧ max 0 ((2 ^ 63 : Int) - (5 - 0)) = 2 ^ 63 - 5
    ∧ ((2 ^ 63 - 5 : Int) : ℚ) / ((2 ^ 63 : Int) : ℚ) * 100 ≠ 0 := by
  refine ⟨?_, by decide, by decide, by norm_num⟩
  unfold compute_cpu_load
  norm_num [toI64, wrapI64]

/-- C4 (amended): for every pair of parsed scheduler-tick samples (with the
guarded field counts), the load computation returns exactly
(busyDelta / totalDelta) * 100, where the deltas are taken through the
code's u64 sums and wrapping `as i64` casts: totalDelta is the wrapped
nowTotal - prevTotal floored to 1, idleDelta the wrapped idle+iowait delta,
busyDelta = max 0 of the wrapped totalDelta - idleDelta. The floor of 1
keeps totalDelta ≥ 1 unconditionally, so the division is never by zero even
when nowTotal - prevTotal ≤ 0; and whenever both totals stay below 2^62 (so
no cast or subtraction wraps) the deltas coincide with the claim's
mathematical ones. -/
theorem cpu_load_formula (prev now : List Nat)
    (h1 : 4 ≤ prev.length) (h2 : prev.length ≤ 10)
    (h3 : 4 ≤ now.length) (h4 : now.length ≤ 10)
    (totalDelta idleDelta busyDelta : Int)
    (htd : totalDelta =
      max (wrapI64 (toI64 (now.sum % 2 ^ 64) - toI64 (prev.sum % 2 ^ 64))) 1)
    (hid : idleDelta = wrapI64 (toI64 ((now.getD 3 0 + now.getD 4 0) % 2 ^ 64) -
      toI64 ((prev.getD 3 0 + prev.getD 4 0) % 2 ^ 64)))
    (hbd : busyDelta = max (wrapI64 (totalDelta - idleDelta)) 0) :
    compute_cpu_load prev now = Except.ok ((busyDelta : ℚ) / (totalDelta : ℚ) * 100)
    ∧ 1 ≤ totalDelta
    ∧ (prev.sum < 2 ^ 62 → now.sum < 2 ^ 62 →
      totalDelta = max 1 ((now.sum : Int) - (prev.sum : Int))
      ∧ idleDelta = (((now.getD 3 0 : Nat) : Int) + ((now.getD 4 0 : Nat) : Int)) -
          (((prev.getD 3 0 : Nat) : Int) + ((prev.getD 4 0 : Nat) : Int))
      ∧ busyDelta = max 0 (totalDelta - idleDelta)) := by
  refine ⟨?_, ?_, ?_⟩
  · subst htd hid hbd
    unfold compute_cpu_load
    rw [if_neg (by omega), if_neg (by omega), if_neg (by omega), if_neg (by omega)]
  · rw [htd]
    exact le_max_right _ 1
  · intro hp hn
    have hps := idle_le_sum prev h1
    have hns := idle_le_sum now h3
    have t1 : toI64 (prev.sum % 2 ^ 64) = (prev.sum : Int) := by
      rw [Nat.mod_eq_of_lt (by omega)]
      exact toI64_of_lt _ (by omega)
    have t2 : toI64 (now.sum % 2 ^ 64) = (now.sum : Int) := by
      rw [Nat.mod_eq_of_lt (by omega)]
      exact toI64_of_lt _ (by omega)
    have t3 : toI64 ((prev.getD 3 0 + prev.getD 4 0) % 2 ^ 64) =
        ((prev.getD 3 0 : Nat) : Int) + ((prev.getD 4 0 : Nat) : Int) := by
      rw [Nat.mod_eq_of_lt (by omega), toI64_of_lt _ (by omega)]
      push_cast
      ring
    have t4 : toI64 ((now.getD 3 0 + now.getD 4 0) % 2 ^ 64) =
        ((now.getD 3 0 : Nat) : Int) + ((now.getD 4 0 : Nat) : Int) := by
      rw [Nat.mod_eq_of_lt (by omega), toI64_of_lt _ (by omega)]
      push_cast
      ring
    have ha : totalDelta = max 1 ((now.sum : Int) - (prev.sum : Int)) := by
      rw [htd, t2, t1, wrapI64_of_bounds _ (by omega) (by omega), max_comm]
    have hb : idleDelta =
        (((now.getD 3 0 : Nat) : Int) + ((now.getD 4 0 : Nat) : Int)) -
          (((prev.getD 3 0 : Nat) : Int) + ((prev.getD 4 0 : Nat) : Int)) := by
      rw [hid, t4, t3, wrapI64_of_bounds _ (by omega) (by omega)]
    have hta : 1 ≤ totalDelta := by
      rw [ha]
      exact le_max_left _ _
    have htb : totalDelta ≤ 2 ^ 62 := by
      rw [ha]
      exact max_le (by norm_num) (by omega)
    refine ⟨ha, hb, ?_⟩
    rw [hbd, wrapI64_of_bounds _ (by omega) (by omega), max_comm]

/-- C4 witness: prev = [3,0,0,5], now = [4,0,0,6] gives wrapped totalDelta 2,
idleDelta 1, busyDelta 1, load 1/2 * 100 = 50%, and both totals are below
2^62 so the wrapped total delta equals the mathematical one. -/
theorem cpu_load_formula_witness :
    compute_cpu_load [3, 0, 0, 5] [4, 0, 0, 6] = Except.ok ((1 : ℚ) / (2 : ℚ) * 100)
    ∧ (1 : Int) ≤ 2
    ∧ (2 : Int) = max 1 ((([4, 0, 0, 6] : List Nat).sum : Int) -
        (([3, 0, 0, 5] : List Nat).sum : Int)) := by
  have h := cpu_load_formula [3, 0, 0, 5] [4, 0, 0, 6] (by decide) (by decide)
    (by decide) (by decide) 2 1 1 (by decide) (by decide) (by decide)
  exact ⟨h.1, h.2.1, (h.2.2 (by decide) (by decide)).1⟩

/-! ## C5 -/

/-- C5 counterexample: at capacity 15 from state Performance the handler
switches to Powersave and invokes `set_powersave_mode`, whose writes (here
for one core) are governor=powersave and epp=balance_power only: no
epp=power, no platform-profile and no boost write as claimed. -/
theorem low_battery_writes_differ :
    handle_event Event.PeriodicCheck (Except.ok 15) (Except.ok ChargingStatus.Charging)
      (Except.ok false) (Except.ok 50) State.Performance =
      Except.ok (State.Powersave, ModeAction.setPowersave)
    ∧ set_powersave_mode 1 =
      Except.ok [ControlWrite.scaling_governer "powersave", ControlWrite.epp "balance_power"]
    ∧ ControlWrite.epp "power" ∉
      [ControlWrite.scaling_governer "powersave", ControlWrite.epp "balance_power"]
    ∧ ControlWrite.platform_profile "low-power" ∉
      [ControlWrite.scaling_governer "powersave", ControlWrite.epp "balance_power"]
    ∧ ControlWrite.cpu_boost "0" ∉
      [ControlWrite.scaling_governer "powersave", ControlWrite.epp "balance_power"] :=
  ⟨rfl, rfl, by decide, by decide, by decide⟩

/-- C5 (amended): a periodic tick at battery capacity 15 from state
Performance classifies LowBattery (before the charging status or boost are
even read), transitions to Powersave, and applying the new state issues
exactly the writes governor=powersave and epp=balance_power, one per core —
no platform-profile and no boost write. -/
theorem low_battery_to_powersave (chg : Except BatteryStatesError ChargingStatus)
    (bst : Except CpuStatesError Bool) (load : ℚ) (n : Nat) :
    periodic_check (Except.ok 15) chg bst load = Except.ok Event.LowBattery
    ∧ handle_event Event.PeriodicCheck (Except.ok 15) chg bst (Except.ok load)
        State.Performance = Except.ok (State.Powersave, ModeAction.setPowersave)
    ∧ set_powersave_mode n =
      Except.ok (List.replicate n (ControlWrite.scaling_governer "powersave") ++
        List.replicate n (ControlWrite.epp "balance_power")) :=
  ⟨rfl, rfl, rfl⟩

/-! ## C6 -/

/-- C6: whenever the charging status reads Discharging,
`set_performance_mode` returns at once and issues zero control writes,
whatever the core count. -/
theorem performance_skipped_when_discharging (n : Nat) :
    set_performance_mode (Except.ok ChargingStatus.DisCharging) n = Except.ok [] :=
  rfl

/-! ## C7 -/

/-- C7: a PowerInPlug event maps every state to Performance, so applying it
is idempotent: a second PowerInPlug from the resulting state yields
Performance again. -/
theorem power_plug_idempotent (s : State) :
    state_transition Event.PowerInPlug s = State.Performance
    ∧ state_transition Event.PowerInPlug (state_transition Event.PowerInPlug s) =
      State.Performance := by
  cases s <;> exact ⟨rfl, rfl⟩

end Powereg

namespace Powereg

/-! ## C8 -/

/-- C8 counterexample: with a failing battery-capacity read the handler falls
back to the delivered event (here PowerInPlug), moving Powersave to
Performance — not the claimed Unknown no-op that leaves the state unchanged;
and a failing CPU-load read makes `handle_event` return an error that the
daemon loop `unwrap()`s, aborting the loop. -/
theorem read_failure_not_unknown :
    handle_event Event.PowerInPlug (Except.error (BatteryStatesError.ParseIntErr "bad"))
      (Except.ok ChargingStatus.Charging) (Except.ok false) (Except.ok 10)
      State.Powersave = Except.ok (State.Performance, ModeAction.setPerformance false)
    ∧ daemon_step Event.PeriodicCheck (Except.ok 80) (Except.ok ChargingStatus.Charging)
        (Except.ok false) (Except.error (CpuStatesError.GenericError "io"))
        State.Balanced = RunResult.panicked "called unwrap on an Err value" :=
  ⟨rfl, rfl⟩

/-- C8 (amended): when a battery or boost read fails during the periodic
classification, `handle_event` falls back to the originally delivered event
and transitions on it (for a delivered PeriodicCheck or Unknown this is a
no-op); when the CPU-load read fails, `handle_event` propagates the error and
the daemon loop's `unwrap()` aborts the loop. -/
theorem classification_failure_fallback (ev : Event)
    (capacity : Except BatteryStatesError Nat)
    (charging : Except BatteryStatesError ChargingStatus)
    (boost : Except CpuStatesError Bool) (load : ℚ) (st : State)
    (e : SystemStateError)
    (h : periodic_check capacity charging boost load = Except.error e) :
    (∃ act, handle_event ev capacity charging boost (Except.ok load) st =
      Except.ok (state_transition ev st, act))
    ∧ ∀ el : CpuStatesError,
      daemon_step ev capacity charging boost (Except.error el) st =
        RunResult.panicked "called unwrap on an Err value" := by
  constructor
  · simp only [handle_event, h]
    repeat' split
    all_goals exact ⟨_, rfl⟩
  · intro el
    rfl

/-- C8 witness: a concrete failing capacity read with a delivered PowerInPlug
from Powersave. -/
theorem classification_failure_fallback_witness :
    (∃ act, handle_event Event.PowerInPlug
      (Except.error (BatteryStatesError.ParseIntErr "x"))
      (Except.ok ChargingStatus.Charging) (Except.ok false) (Except.ok 10)
      State.Powersave =
      Except.ok (state_transition Event.PowerInPlug State.Powersave, act))
    ∧ ∀ el : CpuStatesError,
      daemon_step Event.PowerInPlug (Except.error (BatteryStatesError.ParseIntErr "x"))
        (Except.ok ChargingStatus.Charging) (Except.ok false) (Except.error el)
        State.Powersave = RunResult.panicked "called unwrap on an Err value" :=
  classification_failure_fallback Event.PowerInPlug
    (Except.error (BatteryStatesError.ParseIntErr "x"))
    (Except.ok ChargingStatus.Charging) (Except.ok false) 10 State.Powersave
    (SystemStateError.BatteryStatesErr (BatteryStatesError.ParseIntErr "x")) rfl

/-! ## C9 -/

/-- C9: `set_value` on a handle opened non-writable fails with the
InvalidFilePerms error (the spec's NotWritable) and changes nothing; on a
writable handle it truncates the prior contents, writes exactly the value
followed by one newline, and flushes, in that order. -/
theorem set_value_behavior (fd : PersFd) (v : String) :
    (fd.write = false → fd.set_value v = Except.error PersFdError.InvalidFilePerms)
    ∧ (fd.write = true → fd.set_value v =
      Except.ok ({ fd with contents := v ++ "\n" },
        [FileOp.seekStart, FileOp.truncate, FileOp.writeAll (v ++ "\n"), FileOp.flush])) := by
  constructor <;> intro h <;> simp [PersFd.set_value, h]

/-- C9 witness: a read-only handle rejects the write; a writable handle's
contents become the value plus one newline, with a flush issued last. -/
theorem set_value_behavior_witness :
    (PersFd.mk false "old").set_value "1" = Except.error PersFdError.InvalidFilePerms
    ∧ (PersFd.mk true "old").set_value "1" =
      Except.ok (PersFd.mk true "1\n",
        [FileOp.seekStart, FileOp.truncate, FileOp.writeAll "1\n", FileOp.flush]) :=
  ⟨(set_value_behavior (PersFd.mk false "old") "1").1 rfl,
   (set_value_behavior (PersFd.mk true "old") "1").2 rfl⟩

/-! ## C10 -/

/-- C10: event handling recomputes the classification from the fresh reads;
whenever that classification succeeds, the outcome depends only on the
recomputed classification and the current state — the delivered event is
irrelevant — and the new state is the transition on the recomputed event. -/
theorem transition_uses_recomputed_classification (d1 d2 : Event)
    (capacity : Except BatteryStatesError Nat)
    (charging : Except BatteryStatesError ChargingStatus)
    (boost : Except CpuStatesError Bool) (load : ℚ) (st : State) (ev : Event)
    (h : periodic_check capacity charging boost load = Except.ok ev) :
    handle_event d1 capacity charging boost (Except.ok load) st =
      handle_event d2 capacity charging boost (Except.ok load) st
    ∧ ∃ act, handle_event d1 capacity charging boost (Except.ok load) st =
      Except.ok (state_transition ev st, act) := by
  constructor
  · simp only [handle_event, h]
  · simp only [handle_event, h]
    repeat' split
    all_goals exact ⟨_, rfl⟩

/-- C10 witness: a delivered PowerUnPlug and a delivered Unknown produce the
same outcome once the classification (HighCpuLoad here) succeeds. -/
theorem transition_uses_recomputed_classification_witness :
    handle_event Event.PowerUnPlug (Except.ok 80) (Except.ok ChargingStatus.Charging)
      (Except.ok false) (Except.ok 90) State.Balanced =
      handle_event Event.Unknown (Except.ok 80) (Except.ok ChargingStatus.Charging)
        (Except.ok false) (Except.ok 90) State.Balanced
    ∧ ∃ act, handle_event Event.PowerUnPlug (Except.ok 80)
        (Except.ok ChargingStatus.Charging) (Except.ok false) (Except.ok 90)
        State.Balanced =
      Except.ok (state_transition Event.HighCpuLoad State.Balanced, act) :=
  transition_uses_recomputed_classification Event.PowerUnPlug Event.Unknown
    (Except.ok 80) (Except.ok ChargingStatus.Charging) (Except.ok false) 90
    State.Balanced Event.HighCpuLoad rfl

end Powereg
